import Mathlib

/-!
Shallow embedding of the insights aggregation engine of the CardioAppBackend
repository: `calculateComprehensiveInsights` (the 4x25% variant) and
`calculateEnhancedInsights` (the 30/30/25 + consistency-bonus variant),
together with their helper functions (`calculateStreaks`,
`calculatePersonalBests`, `calculateConsistency`,
`calculateEnhancedHealthScore`, `calculateHealthScoreTrend`).

Numbers are modelled by rationals; computed values that can become NaN or
Infinity in JavaScript (division by a zero denominator, `Math.max` over NaN,
`toFixed` of non-finite values) are modelled by the `JsNum` type below, which
carries the IEEE special values explicitly.  Nullable database columns are
`Option` rationals, and the JavaScript `x || 0` null-coercion is `jsOr0`.
Display-only outputs of the code (message texts, the bedtime estimate, the
heart-rate-zone strings, the per-category narrative sub-reports that no other
computation reads) are not modelled; every field read by another computation
is.
-/

namespace Cardio

/-- Extended JavaScript-style number: a rational, one of the two infinities,
or NaN.  Models the values the analytics code can actually produce. -/
inductive JsNum where
  | nan : JsNum
  | posInf : JsNum
  | negInf : JsNum
  | num : ℚ → JsNum
deriving DecidableEq

/-- JS `x || 0` applied to a nullable numeric column: null becomes 0, any
number (including 0) is kept. -/
def jsOr0 (o : Option ℚ) : ℚ := o.getD 0

/-- JS division of two finite numbers, including the IEEE zero-denominator
results (`0/0 = NaN`, `x/0 = ±Infinity`). -/
def jsDiv (a b : ℚ) : JsNum :=
  if b = 0 then (if a = 0 then .nan else if 0 < a then .posInf else .negInf)
  else .num (a / b)

/-- JS division where both operands may already be non-finite. -/
def jsDivJ : JsNum → JsNum → JsNum
  | .nan, _ => .nan
  | .posInf, .nan => .nan
  | .negInf, .nan => .nan
  | .num _, .nan => .nan
  | .posInf, .posInf => .nan
  | .posInf, .negInf => .nan
  | .negInf, .posInf => .nan
  | .negInf, .negInf => .nan
  | .posInf, .num b => if b < 0 then .negInf else .posInf
  | .negInf, .num b => if b < 0 then .posInf else .negInf
  | .num _, .posInf => .num 0
  | .num _, .negInf => .num 0
  | .num a, .num b => jsDiv a b

/-- JS multiplication of a (possibly non-finite) number by a finite constant. -/
def jsMulC : JsNum → ℚ → JsNum
  | .nan, _ => .nan
  | .posInf, c => if c = 0 then .nan else if c < 0 then .negInf else .posInf
  | .negInf, c => if c = 0 then .nan else if c < 0 then .posInf else .negInf
  | .num a, c => .num (a * c)

/-- JS `1 - x` for a possibly non-finite `x`. -/
def jsOneSub : JsNum → JsNum
  | .nan => .nan
  | .posInf => .negInf
  | .negInf => .posInf
  | .num a => .num (1 - a)

/-- JS `Math.max(0, x)`; NaN propagates (`Math.max(0, NaN) = NaN`). -/
def jsMax0 : JsNum → JsNum
  | .nan => .nan
  | .posInf => .posInf
  | .negInf => .num 0
  | .num a => .num (max 0 a)

/-- JS `Math.abs` on a possibly non-finite number. -/
def jsAbs : JsNum → JsNum
  | .nan => .nan
  | .posInf => .posInf
  | .negInf => .posInf
  | .num a => .num |a|

/-- JS `x + y` where the left operand is finite. -/
def jsAddC : ℚ → JsNum → JsNum
  | _, .nan => .nan
  | _, .posInf => .posInf
  | _, .negInf => .negInf
  | a, .num b => .num (a + b)

/-- JS `Math.round`: nearest integer, ties toward positive infinity;
non-finite inputs pass through (`Math.round(NaN) = NaN`). -/
def mround (q : ℚ) : ℚ := ((⌊q + 1 / 2⌋ : ℤ) : ℚ)

def jsRound : JsNum → JsNum
  | .nan => .nan
  | .posInf => .posInf
  | .negInf => .negInf
  | .num q => .num (mround q)

/-- `Number.prototype.toFixed(1)` viewed numerically: the nearest multiple of
1/10, ties toward positive infinity. -/
def toFixed1 (q : ℚ) : ℚ := ((⌊q * 10 + 1 / 2⌋ : ℤ) : ℚ) / 10

/-- `toFixed(1)` on a possibly non-finite value; NaN and the infinities print
as the strings "NaN" and "Infinity", which parse back to themselves, so they
pass through. -/
def jsToFixed1 : JsNum → JsNum
  | .nan => .nan
  | .posInf => .posInf
  | .negInf => .negInf
  | .num q => .num (toFixed1 q)

/-- JS `x > c` against a finite constant; false on NaN. -/
def jsGtC : JsNum → ℚ → Bool
  | .nan, _ => false
  | .posInf, _ => true
  | .negInf, _ => false
  | .num a, c => decide (c < a)

/-- JS `Math.max(...list)`; the empty spread yields `-Infinity`. -/
def jsMaxList (l : List ℚ) : JsNum :=
  match l with
  | [] => .negInf
  | x :: xs => .num (xs.foldl max x)

/-- JS `metric > 0` on an optional current metric; `undefined > 0` is false. -/
def optPos (o : Option ℚ) : Bool :=
  match o with
  | none => false
  | some v => decide (0 < v)

/-- Model of `Math.sqrt` on rationals, used for concrete evaluations.  It is
exact on rational perfect squares; every concrete evaluation in this file
takes the square root of 0 only, where it coincides with the real square
root.  Universal statements about the consistency computation quantify over
an arbitrary square-root interpretation instead. -/
def mathSqrt (q : ℚ) : ℚ := Rat.sqrt q

/-! ### Database rows and the fetched data object -/

/-- One `activity_data` row (nullable numeric columns). -/
structure ActivityRow where
  steps : Option ℚ := none
  calories : Option ℚ := none
  distance : Option ℚ := none
  exercise_minutes : Option ℚ := none
deriving DecidableEq

/-- One `heart_data` row. -/
structure HeartRow where
  current_heart_rate : Option ℚ := none
  resting_heart_rate : Option ℚ := none
  hrv : Option ℚ := none
deriving DecidableEq

/-- One `sleep_data` row. -/
structure SleepRow where
  total_sleep : Option ℚ := none
  deep_sleep : Option ℚ := none
  rem_sleep : Option ℚ := none
  sleep_hours : Option ℚ := none
deriving DecidableEq

/-- One `body_data` row. -/
structure BodyRow where
  weight : Option ℚ := none
  bmi : Option ℚ := none
  body_fat : Option ℚ := none
  lean_mass : Option ℚ := none
  vo2_max : Option ℚ := none
deriving DecidableEq

/-- One `vitals_data` row. -/
structure VitalsRow where
  bp_systolic : Option ℚ := none
  bp_diastolic : Option ℚ := none
  spo2 : Option ℚ := none
  temperature : Option ℚ := none
deriving DecidableEq

/-- The data object handed to the insight calculators: 30-day windows per
category plus 7-day windows for activity, sleep and heart, each ordered most
recent first (`ORDER BY created_at DESC`). -/
structure HealthData where
  activity : List ActivityRow := []
  heart : List HeartRow := []
  sleep : List SleepRow := []
  body : List BodyRow := []
  vitals : List VitalsRow := []
  weeklyActivity : List ActivityRow := []
  weeklySleep : List SleepRow := []
  weeklyHeart : List HeartRow := []
deriving DecidableEq

/-! ### Result structures -/

/-- The `currentMetrics` map; `none` models an absent key. -/
structure CurrentMetrics where
  steps : Option ℚ := none
  calories : Option ℚ := none
  distance : Option ℚ := none
  exerciseMinutes : Option ℚ := none
  sleepHours : Option ℚ := none
  deepSleep : Option ℚ := none
  remSleep : Option ℚ := none
  currentHeartRate : Option ℚ := none
  restingHeartRate : Option ℚ := none
  hrv : Option ℚ := none
  weightKg : Option ℚ := none
  bmi : Option ℚ := none
  bodyFat : Option ℚ := none
  vo2Max : Option ℚ := none
  oxygenSaturation : Option ℚ := none
  bloodPressureSystolic : Option ℚ := none
  bloodPressureDiastolic : Option ℚ := none
  temperature : Option ℚ := none
deriving DecidableEq

/-- The `trends` map (values are `toFixed(1)` strings in JS; their numeric
content, including "NaN"/"Infinity", is carried by `JsNum`). -/
structure Trends where
  steps : Option JsNum := none
  heartRate : Option JsNum := none
  sleep : Option JsNum := none
  weight : Option JsNum := none
deriving DecidableEq

/-- The `weeklyAverages` map. -/
structure WeeklyAverages where
  steps : Option JsNum := none
  calories : Option JsNum := none
  distance : Option JsNum := none
  restingHeartRate : Option ℚ := none
  sleepHours : Option ℚ := none
  deepSleep : Option ℚ := none
deriving DecidableEq

inductive Category where
  | activity | heart | sleep | body | vitals
deriving DecidableEq

inductive Priority where
  | high | medium | positive
deriving DecidableEq

inductive AlertType where
  | warning | critical
deriving DecidableEq

/-- A recommendation entry (the free-text `message` fields are display-only
and not modelled). -/
structure Recommendation where
  category : Category
  priority : Priority
  title : String
deriving DecidableEq

/-- An alert entry; `atype` models the JS `type` field. -/
structure Alert where
  atype : AlertType
  category : Category
deriving DecidableEq

inductive HSTrend where
  | improving | stable | needsAttention
deriving DecidableEq

/-- The `weeklySummary` object of the comprehensive variant. -/
structure WeeklySummary where
  totalSteps : ℚ
  avgSleepHours : ℚ
  workoutsCompleted : ℕ
  healthScoreTrend : HSTrend
deriving DecidableEq

/-- Result of `calculateComprehensiveInsights`. -/
structure CompInsights where
  currentMetrics : CurrentMetrics
  trends : Trends
  healthScore : ℚ
  recommendations : List Recommendation
  alerts : List Alert
  weeklyAverages : WeeklyAverages
  weeklySummary : WeeklySummary
deriving DecidableEq

inductive Greeting where
  | morning | afternoon | evening
deriving DecidableEq

/-- `detailedAnalysis.steps` of the enhanced variant (the only detailed
sub-report another computation reads: the health score uses `consistency`). -/
structure StepsDetail where
  todayVsAverage : JsNum
  weeklyTotal : ℚ
  bestDay : JsNum
  consistency : JsNum
  projectedWeekly : ℚ
  goalProgress : ℚ
deriving DecidableEq

/-- `personalBests` of the enhanced variant. -/
structure PersonalBests where
  maxSteps : Option JsNum := none
  maxCalories : Option JsNum := none
  maxDistance : Option JsNum := none
  maxSleep : Option JsNum := none
deriving DecidableEq

inductive PersonalTag where
  | morningMotivation | positiveTrend
deriving DecidableEq

/-- Result of `calculateEnhancedInsights`. -/
structure EnhancedInsights where
  currentMetrics : CurrentMetrics
  trends : Trends
  healthScore : JsNum
  recommendations : List Recommendation
  alerts : List Alert
  weeklyAverages : WeeklyAverages
  detailedSteps : Option StepsDetail
  timeOfDay : Greeting
  streaks : Option ℕ
  personalBests : PersonalBests
  personalizedInsights : List PersonalTag
deriving DecidableEq

/-! ### Shared per-window sequences -/

/-- `weeklySteps`: steps of the 7-day activity window, nulls coerced to 0. -/
def weeklyStepsOf (data : HealthData) : List ℚ :=
  data.weeklyActivity.map fun d => jsOr0 d.steps

/-- `weeklyHR`: resting heart rates of the 7-day window, zero/absent readings
filtered out (`.filter(hr => hr > 0)`). -/
def weeklyHROf (data : HealthData) : List ℚ :=
  (data.weeklyHeart.map fun d => jsOr0 d.resting_heart_rate).filter fun hr => decide (0 < hr)

/-- `weeklySleepHours`: sleep hours of the 7-day window, zero/absent readings
filtered out. -/
def weeklySleepHoursOf (data : HealthData) : List ℚ :=
  (data.weeklySleep.map fun d => jsOr0 d.sleep_hours).filter fun h => decide (0 < h)

/-- `monthlyWeight`: weights of the 30-day body window, zero/absent filtered. -/
def monthlyWeightOf (data : HealthData) : List ℚ :=
  (data.body.map fun d => jsOr0 d.weight).filter fun w => decide (0 < w)

/-- Arithmetic mean as written in the source (`reduce((a,b)=>a+b,0) / length`);
callers guarantee nonemptiness where a plain rational is used. -/
def listAvg (l : List ℚ) : ℚ := l.sum / (l.length : ℚ)

/-- The recent-vs-older trend computation shared by the steps, heart-rate and
sleep trends: slice indices 0-2 against 3-5 of the (descending-recency)
window, percentage change with JS division semantics, `toFixed(1)`.  `none`
models the key being left unset when either slice is empty. -/
def trendOf (values : List ℚ) : Option JsNum :=
  let recent := values.take 3
  let older := (values.drop 3).take 3
  if 0 < recent.length ∧ 0 < older.length then
    some (jsToFixed1 (jsMulC (jsDiv (listAvg recent - listAvg older) (listAvg older)) 100))
  else none

/-- The body-weight trend of the comprehensive variant: requires at least two
positive weights, then compares slices 0-4 and 5-9. -/
def weightTrendOf (monthlyWeight : List ℚ) : Option JsNum :=
  if 2 ≤ monthlyWeight.length then
    let recent := monthlyWeight.take 5
    let older := (monthlyWeight.drop 5).take 5
    if 0 < recent.length ∧ 0 < older.length then
      some (jsToFixed1 (jsMulC (jsDiv (listAvg recent - listAvg older) (listAvg older)) 100))
    else none
  else none

/-! ### Category sub-scores (shared by both score calculations) -/

/-- `Math.min(100, steps / 10000 * 100)`. -/
def stepsSubScore (steps : ℚ) : ℚ := min 100 (steps / 10000 * 100)

/-- Resting-heart-rate piecewise sub-score. -/
def heartSubScore (rhr : ℚ) : ℚ :=
  if 50 ≤ rhr ∧ rhr ≤ 70 then 100
  else if 70 < rhr ∧ rhr ≤ 90 then 75
  else if rhr < 50 ∧ 40 ≤ rhr then 85
  else 50

/-- Sleep-hours piecewise sub-score. -/
def sleepSubScore (hours : ℚ) : ℚ :=
  if 7 ≤ hours ∧ hours ≤ 9 then 100
  else if 6 ≤ hours ∧ hours < 7 then 80
  else if 9 < hours ∧ hours ≤ 10 then 85
  else 50

/-- SpO2 piecewise sub-score (comprehensive variant only). -/
def vitalsSubScore (spo2 : ℚ) : ℚ :=
  if 95 ≤ spo2 then 100 else if 90 ≤ spo2 then 75 else 50

/-! ### calculateComprehensiveInsights (the 4x25% variant) -/

/-- `currentMetrics` as assembled by `calculateComprehensiveInsights`: each
category block runs only when its 30-day window is nonempty and copies the
newest row's fields with `|| 0` null-coercion. -/
def compCurrentMetrics (data : HealthData) : CurrentMetrics :=
  let cm : CurrentMetrics := {}
  let cm := match data.activity with
    | [] => cm
    | r :: _ =>
      { cm with steps := some (jsOr0 r.steps), calories := some (jsOr0 r.calories),
                distance := some (jsOr0 r.distance),
                exerciseMinutes := some (jsOr0 r.exercise_minutes) }
  let cm := match data.heart with
    | [] => cm
    | r :: _ =>
      { cm with currentHeartRate := some (jsOr0 r.current_heart_rate),
                restingHeartRate := some (jsOr0 r.resting_heart_rate),
                hrv := some (jsOr0 r.hrv) }
  let cm := match data.sleep with
    | [] => cm
    | r :: _ =>
      { cm with sleepHours := some (jsOr0 r.sleep_hours),
                deepSleep := some (jsOr0 r.deep_sleep),
                remSleep := some (jsOr0 r.rem_sleep) }
  let cm := match data.body with
    | [] => cm
    | r :: _ =>
      { cm with weightKg := some (jsOr0 r.weight), bmi := some (jsOr0 r.bmi),
                bodyFat := some (jsOr0 r.body_fat), vo2Max := some (jsOr0 r.vo2_max) }
  match data.vitals with
  | [] => cm
  | r :: _ =>
    { cm with oxygenSaturation := some (jsOr0 r.spo2),
              bloodPressureSystolic := some (jsOr0 r.bp_systolic),
              bloodPressureDiastolic := some (jsOr0 r.bp_diastolic),
              temperature := some (jsOr0 r.temperature) }

/-- `weeklyAverages` of the comprehensive variant.  The steps/calories
averages divide by the 7-day window length with no emptiness guard (JS
`0/0 = NaN`); the heart and sleep averages are guarded by their filtered
lists being nonempty. -/
def compWeeklyAverages (data : HealthData) : WeeklyAverages :=
  let wa : WeeklyAverages := {}
  let wa := match data.activity with
    | [] => wa
    | _ :: _ =>
      { wa with
        steps := some (jsRound (jsDiv (weeklyStepsOf data).sum ((weeklyStepsOf data).length : ℚ))),
        calories := some (jsRound (jsDiv ((data.weeklyActivity.map fun d => jsOr0 d.calories).sum)
          ((data.weeklyActivity.length : ℚ)))) }
  let wa := match data.heart with
    | [] => wa
    | _ :: _ =>
      if 0 < (weeklyHROf data).length then
        { wa with restingHeartRate := some (mround (listAvg (weeklyHROf data))) }
      else wa
  match data.sleep with
  | [] => wa
  | _ :: _ =>
    if 0 < (weeklySleepHoursOf data).length then
      { wa with sleepHours := some (toFixed1 (listAvg (weeklySleepHoursOf data))) }
    else wa

/-- `trends` of the comprehensive variant. -/
def compTrends (data : HealthData) : Trends :=
  { steps := match data.activity with
      | [] => none
      | _ :: _ => trendOf (weeklyStepsOf data)
    heartRate := match data.heart with
      | [] => none
      | _ :: _ => if 0 < (weeklyHROf data).length then trendOf (weeklyHROf data) else none
    sleep := match data.sleep with
      | [] => none
      | _ :: _ =>
        if 0 < (weeklySleepHoursOf data).length then trendOf (weeklySleepHoursOf data) else none
    weight := match data.body with
      | [] => none
      | _ :: _ => weightTrendOf (monthlyWeightOf data) }

/-- Activity recommendations of the comprehensive variant. -/
def compActRecs (data : HealthData) : List Recommendation :=
  match data.activity with
  | [] => []
  | r :: _ =>
    let s := jsOr0 r.steps
    if s < 5000 then
      [{ category := .activity, priority := .high, title := "Increase Daily Movement" }]
    else if 10000 ≤ s then
      [{ category := .activity, priority := .positive, title := "Excellent Activity Level" }]
    else []

/-- Heart recommendations of the comprehensive variant. -/
def compHeartRecs (data : HealthData) : List Recommendation :=
  match data.heart with
  | [] => []
  | r :: _ =>
    let rhr := jsOr0 r.resting_heart_rate
    if 100 < rhr then []
    else if 50 ≤ rhr ∧ rhr ≤ 70 then
      [{ category := .heart, priority := .positive, title := "Optimal Heart Health" }]
    else []

/-- Sleep recommendations of the comprehensive variant. -/
def compSleepRecs (data : HealthData) : List Recommendation :=
  match data.sleep with
  | [] => []
  | r :: _ =>
    let sh := jsOr0 r.sleep_hours
    if sh < 6 then []
    else if 7 ≤ sh ∧ sh ≤ 9 then
      [{ category := .sleep, priority := .positive, title := "Optimal Sleep Duration" }]
    else []

/-- Body recommendations of the comprehensive variant. -/
def compBodyRecs (data : HealthData) : List Recommendation :=
  match data.body with
  | [] => []
  | r :: _ =>
    let bmi := jsOr0 r.bmi
    if 0 < bmi then
      if 18.5 ≤ bmi ∧ bmi < 25 then
        [{ category := .body, priority := .positive, title := "Healthy BMI Range" }]
      else if 25 ≤ bmi then
        [{ category := .body, priority := .medium, title := "Weight Management" }]
      else []
    else []

/-- Vitals recommendations of the comprehensive variant. -/
def compVitalsRecs (data : HealthData) : List Recommendation :=
  match data.vitals with
  | [] => []
  | r :: _ =>
    let spo2 := jsOr0 r.spo2
    if spo2 < 90 ∧ 0 < spo2 then []
    else if 95 ≤ spo2 then
      [{ category := .vitals, priority := .positive, title := "Excellent Oxygen Levels" }]
    else []

/-- Recommendations in category-processing order. -/
def compRecommendations (data : HealthData) : List Recommendation :=
  compActRecs data ++ compHeartRecs data ++ compSleepRecs data ++
    compBodyRecs data ++ compVitalsRecs data

/-- Heart alert of the comprehensive variant (resting HR above 100). -/
def compHeartAlerts (data : HealthData) : List Alert :=
  match data.heart with
  | [] => []
  | r :: _ =>
    if 100 < jsOr0 r.resting_heart_rate then
      [{ atype := .warning, category := .heart }]
    else []

/-- Sleep alert of the comprehensive variant (under 6 hours). -/
def compSleepAlerts (data : HealthData) : List Alert :=
  match data.sleep with
  | [] => []
  | r :: _ =>
    if jsOr0 r.sleep_hours < 6 then
      [{ atype := .warning, category := .sleep }]
    else []

/-- Vitals alerts of the comprehensive variant (critical low SpO2, then the
blood-pressure warning). -/
def compVitalsAlerts (data : HealthData) : List Alert :=
  match data.vitals with
  | [] => []
  | r :: _ =>
    let spo2 := jsOr0 r.spo2
    (if spo2 < 90 ∧ 0 < spo2 then [{ atype := .critical, category := .vitals }] else []) ++
      (if 140 < jsOr0 r.bp_systolic ∨ 90 < jsOr0 r.bp_diastolic then
        [{ atype := .warning, category := .vitals }]
      else [])

/-- Alerts in push order (heart, sleep, vitals). -/
def compAlerts (data : HealthData) : List Alert :=
  compHeartAlerts data ++ compSleepAlerts data ++ compVitalsAlerts data

/-- The overall health-score accumulation of the comprehensive variant: four
25% components, each included (in numerator and denominator) exactly when its
current metric is positive, then `Math.round(totalScore / scoreComponents)`,
or 0 when no component is present. -/
def compositeHealthScore (cm : CurrentMetrics) : ℚ :=
  let t1 : ℚ := if optPos cm.steps then stepsSubScore (jsOr0 cm.steps) * (25 / 100) else 0
  let c1 : ℚ := if optPos cm.steps then 25 / 100 else 0
  let t2 := t1 + (if optPos cm.restingHeartRate then
    heartSubScore (jsOr0 cm.restingHeartRate) * (25 / 100) else 0)
  let c2 := c1 + (if optPos cm.restingHeartRate then (25 / 100 : ℚ) else 0)
  let t3 := t2 + (if optPos cm.sleepHours then sleepSubScore (jsOr0 cm.sleepHours) * (25 / 100) else 0)
  let c3 := c2 + (if optPos cm.sleepHours then (25 / 100 : ℚ) else 0)
  let t4 := t3 + (if optPos cm.oxygenSaturation then
    vitalsSubScore (jsOr0 cm.oxygenSaturation) * (25 / 100) else 0)
  let c4 := c3 + (if optPos cm.oxygenSaturation then (25 / 100 : ℚ) else 0)
  if 0 < c4 then mround (t4 / c4) else 0

/-- `calculateHealthScoreTrend`: counts which of the three 7-day windows have
more than three rows. -/
def calculateHealthScoreTrend (data : HealthData) : HSTrend :=
  let n := ([decide (3 < data.weeklyActivity.length), decide (3 < data.weeklySleep.length),
    decide (3 < data.weeklyHeart.length)].filter fun b => b).length
  if 2 ≤ n then .improving else if n = 1 then .stable else .needsAttention

/-- `weeklySummary` of the comprehensive variant. -/
def compWeeklySummary (data : HealthData) : WeeklySummary :=
  { totalSteps := (data.weeklyActivity.map fun d => jsOr0 d.steps).sum
    avgSleepHours := ((compWeeklyAverages data).sleepHours).getD 0
    workoutsCompleted :=
      (data.weeklyActivity.filter fun d => decide (30 < jsOr0 d.exercise_minutes)).length
    healthScoreTrend := calculateHealthScoreTrend data }

/-- `calculateComprehensiveInsights` (the 4x25% variant). -/
def calculateComprehensiveInsights (data : HealthData) : CompInsights :=
  { currentMetrics := compCurrentMetrics data
    trends := compTrends data
    healthScore := compositeHealthScore (compCurrentMetrics data)
    recommendations := compRecommendations data
    alerts := compAlerts data
    weeklyAverages := compWeeklyAverages data
    weeklySummary := compWeeklySummary data }

/-! ### calculateEnhancedInsights (the 30/30/25 + consistency variant) -/

/-- `calculateStreaks`.  The source iterates `for (const day of
data.activity.reverse())`, i.e. it reverses the most-recent-first array IN
PLACE and counts qualifying days (steps at least 8000) from the front of the
reversed — oldest-first — array, stopping at the first non-qualifying day.
The pair returns the computed streak together with the data object as the
caller now sees it (the activity array reversed). -/
def calculateStreaks (data : HealthData) : Option ℕ × HealthData :=
  match data.activity with
  | [] => (none, data)
  | _ :: _ =>
    let rev := data.activity.reverse
    (some ((rev.takeWhile fun day => decide (8000 ≤ jsOr0 day.steps)).length),
      { data with activity := rev })

/-- `calculatePersonalBests` (evaluated on the data object after
`calculateStreaks` has mutated it; the maxima are order-independent). -/
def calculatePersonalBests (data : HealthData) : PersonalBests :=
  let pb : PersonalBests := {}
  let pb := match data.activity with
    | [] => pb
    | _ :: _ =>
      { pb with
        maxSteps := some (jsMaxList (data.activity.map fun d => jsOr0 d.steps)),
        maxCalories := some (jsMaxList (data.activity.map fun d => jsOr0 d.calories)),
        maxDistance := some (jsMaxList (data.activity.map fun d => jsOr0 d.distance)) }
  match data.sleep with
  | [] => pb
  | _ :: _ =>
    { pb with maxSleep := some (jsMaxList (data.sleep.map fun d => jsOr0 d.sleep_hours)) }

/-- `calculateConsistency`, parameterized by the square-root interpretation
`msqrt` standing for `Math.sqrt` (Lean has no computable exact square root on
the rationals; universal theorems below quantify over `msqrt`, and every
concrete evaluation only takes the square root of 0). -/
def calculateConsistency (msqrt : ℚ → ℚ) (values : List ℚ) : JsNum :=
  if values.length < 2 then .num 0
  else
    let mean := values.sum / (values.length : ℚ)
    let variance := (values.map fun v => (v - mean) ^ 2).sum / (values.length : ℚ)
    let stdDev := msqrt variance
    jsToFixed1 (jsMax0 (jsMulC (jsOneSub (jsDiv stdDev mean)) 100))

/-- `getTimeBasedGreeting` as a function of the current hour. -/
def getTimeBasedGreeting (hour : ℕ) : Greeting :=
  if hour < 12 then .morning else if hour < 17 then .afternoon else .evening

/-- `currentMetrics` of the enhanced variant (activity, sleep and heart
blocks only; note the `data` argument here is the object AFTER the
`calculateStreaks` mutation, so `data.activity` is oldest-first). -/
def enhCurrentMetrics (data : HealthData) : CurrentMetrics :=
  let cm : CurrentMetrics := {}
  let cm := match data.activity with
    | [] => cm
    | r :: _ =>
      { cm with steps := some (jsOr0 r.steps), calories := some (jsOr0 r.calories),
                distance := some (jsOr0 r.distance),
                exerciseMinutes := some (jsOr0 r.exercise_minutes) }
  let cm := match data.sleep with
    | [] => cm
    | r :: _ =>
      { cm with sleepHours := some (jsOr0 r.sleep_hours),
                deepSleep := some (jsOr0 r.deep_sleep),
                remSleep := some (jsOr0 r.rem_sleep) }
  match data.heart with
  | [] => cm
  | r :: _ =>
    { cm with currentHeartRate := some (jsOr0 r.current_heart_rate),
              restingHeartRate := some (jsOr0 r.resting_heart_rate),
              hrv := some (jsOr0 r.hrv) }

/-- `weeklyAverages` of the enhanced variant: unguarded steps / calories /
distance divisions inside the activity block, guarded sleep and heart
averages. -/
def enhWeeklyAverages (data : HealthData) : WeeklyAverages :=
  let wa : WeeklyAverages := {}
  let wa := match data.activity with
    | [] => wa
    | _ :: _ =>
      { wa with
        steps := some (jsRound (jsDiv (weeklyStepsOf data).sum ((weeklyStepsOf data).length : ℚ))),
        calories := some (jsRound (jsDiv ((data.weeklyActivity.map fun d => jsOr0 d.calories).sum)
          ((data.weeklyActivity.length : ℚ)))),
        distance := some (jsToFixed1 (jsDiv ((data.weeklyActivity.map fun d => jsOr0 d.distance).sum)
          ((data.weeklyActivity.length : ℚ)))) }
  let wa := match data.sleep with
    | [] => wa
    | _ :: _ =>
      if 0 < (weeklySleepHoursOf data).length then
        { wa with
          sleepHours := some (toFixed1 (listAvg (weeklySleepHoursOf data))),
          deepSleep := some (toFixed1
            (((data.weeklySleep.map fun d => jsOr0 d.deep_sleep).sum) /
              (data.weeklySleep.length : ℚ))) }
      else wa
  match data.heart with
  | [] => wa
  | _ :: _ =>
    if 0 < (weeklyHROf data).length then
      { wa with restingHeartRate := some (mround (listAvg (weeklyHROf data))) }
    else wa

/-- `trends` of the enhanced variant (it only ever sets the steps trend). -/
def enhTrends (data : HealthData) : Trends :=
  { steps := match data.activity with
      | [] => none
      | _ :: _ => trendOf (weeklyStepsOf data) }

/-- `detailedAnalysis.steps` of the enhanced variant. -/
def enhStepsDetail (msqrt : ℚ → ℚ) (data : HealthData) : Option StepsDetail :=
  match data.activity with
  | [] => none
  | r :: _ =>
    let weeklySteps := weeklyStepsOf data
    let waSteps := jsRound (jsDiv weeklySteps.sum (weeklySteps.length : ℚ))
    some
      { todayVsAverage := jsToFixed1 (jsMulC (jsDivJ (.num (jsOr0 r.steps)) waSteps) 100)
        weeklyTotal := weeklySteps.sum
        bestDay := jsMaxList weeklySteps
        consistency := calculateConsistency msqrt weeklySteps
        projectedWeekly := jsOr0 r.steps * 7
        goalProgress := toFixed1 (jsOr0 r.steps / 10000 * 100) }

/-- Base activity recommendation of the enhanced variant (below 5000 steps,
or at least 8000 steps). -/
def enhActRecs (data : HealthData) : List Recommendation :=
  match data.activity with
  | [] => []
  | r :: _ =>
    let s := jsOr0 r.steps
    if s < 5000 then
      [{ category := .activity, priority := .high, title := "Boost Your Daily Movement" }]
    else if 8000 ≤ s then
      [{ category := .activity, priority := .positive, title := "Outstanding Activity Level" }]
    else []

/-- Trend-based activity recommendation of the enhanced variant: pushed when
the absolute (string-coerced) steps trend exceeds 10. -/
def enhTrendRecs (data : HealthData) : List Recommendation :=
  match data.activity with
  | [] => []
  | _ :: _ =>
    match trendOf (weeklyStepsOf data) with
    | none => []
    | some t =>
      if jsGtC (jsAbs t) 10 then
        [{ category := .activity,
           priority := if jsGtC t 0 then .positive else .medium,
           title := if jsGtC t 0 then "Positive Activity Trend" else "Activity Declining" }]
      else []

/-- Sleep recommendations of the enhanced variant; unlike the comprehensive
variant these sit INSIDE the `weeklySleepHours.length > 0` guard, and the
under-6-hours branch pushes a high-priority recommendation as well as the
alert. -/
def enhSleepRecs (data : HealthData) : List Recommendation :=
  match data.sleep with
  | [] => []
  | r :: _ =>
    if 0 < (weeklySleepHoursOf data).length then
      let sh := jsOr0 r.sleep_hours
      if sh < 6 then
        [{ category := .sleep, priority := .high, title := "Prioritize Sleep Recovery" }]
      else if 7 ≤ sh ∧ sh ≤ 9 then
        [{ category := .sleep, priority := .positive, title := "Excellent Sleep Duration" }]
      else []
    else []

/-- Heart recommendations of the enhanced variant (inside the
`weeklyHR.length > 0` guard; above 100 also pushes a high-priority
recommendation). -/
def enhHeartRecs (data : HealthData) : List Recommendation :=
  match data.heart with
  | [] => []
  | r :: _ =>
    if 0 < (weeklyHROf data).length then
      let rhr := jsOr0 r.resting_heart_rate
      if 100 < rhr then
        [{ category := .heart, priority := .high, title := "Focus on Recovery" }]
      else if 50 ≤ rhr ∧ rhr ≤ 70 then
        [{ category := .heart, priority := .positive, title := "Optimal Cardiovascular Health" }]
      else []
    else []

/-- Enhanced recommendations in push order (activity base, activity trend,
sleep, heart). -/
def enhRecommendations (data : HealthData) : List Recommendation :=
  enhActRecs data ++ enhTrendRecs data ++ enhSleepRecs data ++ enhHeartRecs data

/-- Sleep alert of the enhanced variant (inside the weekly guard). -/
def enhSleepAlerts (data : HealthData) : List Alert :=
  match data.sleep with
  | [] => []
  | r :: _ =>
    if 0 < (weeklySleepHoursOf data).length then
      if jsOr0 r.sleep_hours < 6 then [{ atype := .warning, category := .sleep }] else []
    else []

/-- Heart alert of the enhanced variant (inside the weekly guard). -/
def enhHeartAlerts (data : HealthData) : List Alert :=
  match data.heart with
  | [] => []
  | r :: _ =>
    if 0 < (weeklyHROf data).length then
      if 100 < jsOr0 r.resting_heart_rate then [{ atype := .warning, category := .heart }] else []
    else []

/-- Enhanced alerts in push order (sleep block runs before the heart block). -/
def enhAlerts (data : HealthData) : List Alert :=
  enhSleepAlerts data ++ enhHeartAlerts data

/-- `calculateEnhancedHealthScore`: activity 30%, sleep 30%, heart 25%, plus
an UNCONDITIONAL consistency component — `components += 0.15` runs outside
any guard, and the consistency value read from
`detailedAnalysis.steps?.consistency || 0` can be NaN, which then propagates
through `totalScore` and `Math.round`. -/
def calculateEnhancedHealthScore (cm : CurrentMetrics) (detailedSteps : Option StepsDetail) :
    JsNum :=
  let t1 : ℚ := if optPos cm.steps then stepsSubScore (jsOr0 cm.steps) * (30 / 100) else 0
  let c1 : ℚ := if optPos cm.steps then 30 / 100 else 0
  let t2 := t1 + (if optPos cm.sleepHours then sleepSubScore (jsOr0 cm.sleepHours) * (30 / 100) else 0)
  let c2 := c1 + (if optPos cm.sleepHours then (30 / 100 : ℚ) else 0)
  let t3 := t2 + (if optPos cm.restingHeartRate then
    heartSubScore (jsOr0 cm.restingHeartRate) * (25 / 100) else 0)
  let c3 := c2 + (if optPos cm.restingHeartRate then (25 / 100 : ℚ) else 0)
  let consistency : JsNum := match detailedSteps with
    | none => .num 0
    | some d0 => d0.consistency
  let total : JsNum := jsAddC t3 (jsMulC (jsDivJ consistency (.num 100)) 15)
  let c4 := c3 + 15 / 100
  if 0 < c4 then jsRound (jsDivJ total (.num c4)) else .num 0

/-- `generatePersonalizedInsights` reduced to its two tags (their message
strings are display-only). -/
def generatePersonalizedInsights (hour : ℕ) (cm : CurrentMetrics) (trends : Trends) :
    List PersonalTag :=
  (if decide (hour < 10) && (match cm.steps with
      | some s => decide (s < 1000)
      | none => false) then
    [PersonalTag.morningMotivation]
  else []) ++
    (match trends.steps with
     | some t => if jsGtC t 15 then [PersonalTag.positiveTrend] else []
     | none => [])

/-- `calculateEnhancedInsights`.  The `streaks` field is computed first while
the insight object literal is built, which reverses `data.activity` in place;
every later read (current metrics, personal bests, the activity analysis)
sees the reversed, oldest-first array.  `hour` stands for the wall-clock hour
read by the greeting and the personalization step. -/
def calculateEnhancedInsights (msqrt : ℚ → ℚ) (hour : ℕ) (data0 : HealthData) :
    EnhancedInsights :=
  let sp := calculateStreaks data0
  let data := sp.2
  let cm := enhCurrentMetrics data
  { currentMetrics := cm
    trends := enhTrends data
    healthScore := calculateEnhancedHealthScore cm (enhStepsDetail msqrt data)
    recommendations := enhRecommendations data
    alerts := enhAlerts data
    weeklyAverages := enhWeeklyAverages data
    detailedSteps := enhStepsDetail msqrt data
    timeOfDay := getTimeBasedGreeting hour
    streaks := sp.1
    personalBests := calculatePersonalBests data
    personalizedInsights := generatePersonalizedInsights hour cm (enhTrends data) }

/-- The guarded weight-accumulation shape shared by the health-score
calculations: four components, each adding sub-score x weight to the total
and weight to the divisor exactly when its guard holds, then
`Math.round(total / components)` (0 when no component).
`compositeHealthScore` is definitionally this shape instantiated with the
comprehensive variant's guards, sub-scores and 25% weights. -/
def scoreAccum (w1 w2 w3 w4 : ℚ) (b1 b2 b3 b4 : Bool) (s1 s2 s3 s4 : ℚ) : ℚ :=
  let t1 : ℚ := if b1 then s1 * w1 else 0
  let c1 : ℚ := if b1 then w1 else 0
  let t2 := t1 + (if b2 then s2 * w2 else 0)
  let c2 := c1 + (if b2 then w2 else 0)
  let t3 := t2 + (if b3 then s3 * w3 else 0)
  let c3 := c2 + (if b3 then w3 else 0)
  let t4 := t3 + (if b4 then s4 * w4 else 0)
  let c4 := c3 + (if b4 then w4 else 0)
  if 0 < c4 then mround (t4 / c4) else 0

/-! ### Specification-side definitions (for refinement comparison) -/

/-- Specification-side statement of the composite health score, written after
the spec's words: the sum of weight times sub-score over exactly the
categories that have data, divided by the sum of those categories' weights,
rounded to the nearest integer; 0 when no category has data.  "Has data" is a
positive current metric — the nullable columns were already coerced with
`|| 0`, so an absent category and a null metric both read as not-positive. -/
def specCompositeScore (cm : CurrentMetrics) : ℚ :=
  let comps : List (ℚ × ℚ) :=
    (if optPos cm.steps then [((25 : ℚ) / 100, stepsSubScore (jsOr0 cm.steps))] else []) ++
      (if optPos cm.restingHeartRate then
        [((25 : ℚ) / 100, heartSubScore (jsOr0 cm.restingHeartRate))] else []) ++
      (if optPos cm.sleepHours then
        [((25 : ℚ) / 100, sleepSubScore (jsOr0 cm.sleepHours))] else []) ++
      (if optPos cm.oxygenSaturation then
        [((25 : ℚ) / 100, vitalsSubScore (jsOr0 cm.oxygenSaturation))] else [])
  if comps = [] then 0
  else mround ((comps.map fun p => p.1 * p.2).sum / (comps.map Prod.fst).sum)

/-! ### Concrete inputs used by the counterexamples and witnesses -/

/-- A user with no snapshots in any category. -/
def emptyData : HealthData := {}

/-- Two activity snapshots, most recent first: 100 steps today, 7 steps on
the older day. -/
def exC1 : HealthData := { activity := [{ steps := some 100 }, { steps := some 7 }] }

/-- A 7-day steps window [1,1,1,0,0,0] (most recent first): the older slice
averages exactly 0 while both slices are nonempty. -/
def exC2 : HealthData :=
  { activity := [{ steps := some 1 }]
    weeklyActivity := [{ steps := some 1 }, { steps := some 1 }, { steps := some 1 },
      { steps := some 0 }, { steps := some 0 }, { steps := some 0 }] }

/-- An activity window whose 7-day slice holds two all-zero step readings:
the consistency computation divides 0 by 0. -/
def exC3 : HealthData :=
  { activity := [{ steps := some 0 }]
    weeklyActivity := [{ steps := some 0 }, { steps := some 0 }] }

/-- One activity row of a single step: the comprehensive score computes to 0
even though data is present. -/
def exTiny : HealthData :=
  { activity := [{ steps := some 1 }], weeklyActivity := [{ steps := some 1 }] }

/-- Most recent day 9000 steps (qualifying), older day 1000 steps. -/
def exC4 : HealthData := { activity := [{ steps := some 9000 }, { steps := some 1000 }] }

/-- Only sleep data (8 hours): exactly one category present for the enhanced
score. -/
def exC5 : HealthData :=
  { sleep := [{ sleep_hours := some 8 }], weeklySleep := [{ sleep_hours := some 8 }] }

/-- The spec's composite-score scenario: steps 9500, resting heart rate 65,
sleep hours 7.5, no vitals. -/
def exC5scen : HealthData :=
  { activity := [{ steps := some 9500 }]
    heart := [{ resting_heart_rate := some 65 }]
    sleep := [{ sleep_hours := some 7.5 }] }

/-- The spec's trend scenario: 7-day steps window
[12000, 11000, 10500, 9000, 8500, 8000], most recent first. -/
def exC6 : HealthData :=
  { activity := [{ steps := some 12000 }]
    weeklyActivity := [{ steps := some 12000 }, { steps := some 11000 }, { steps := some 10500 },
      { steps := some 9000 }, { steps := some 8500 }, { steps := some 8000 }] }

/-- Nonempty 30-day activity window with an empty 7-day window. -/
def exC10 : HealthData := { activity := [{ steps := some 5 }] }

/-- Nonempty data in every category (used to witness the per-category
statements at a concrete input). -/
def exAll : HealthData :=
  { activity :=
      [{ steps := some 9500, calories := some 300, distance := some 4,
         exercise_minutes := some 40 }]
    heart := [{ current_heart_rate := some 80, resting_heart_rate := some 65, hrv := some 45 }]
    sleep :=
      [{ total_sleep := some 8, deep_sleep := some 2, rem_sleep := some 1,
         sleep_hours := some 7.5 }]
    body := [{ weight := some 70, bmi := some 22, body_fat := some 18, vo2_max := some 45 }]
    vitals :=
      [{ bp_systolic := some 120, bp_diastolic := some 80, spo2 := some 97,
         temperature := some 37 }]
    weeklyActivity := [{ steps := some 9500 }]
    weeklySleep := [{ sleep_hours := some 7.5 }]
    weeklyHeart := [{ resting_heart_rate := some 65 }] }

/-! ## Helper lemmas -/

/-- `calculateStreaks` hands the caller back the data object with the
activity array reversed (a no-op for the empty array). -/
theorem calculateStreaks_snd (data : HealthData) :
    (calculateStreaks data).2 = { data with activity := data.activity.reverse } := by
  rcases data with ⟨act, hrt, slp, bdy, vit, wact, wslp, whrt⟩
  cases act <;> rfl

/-- Closed form of the enhanced currentMetrics: every field is the head of
its (possibly mutated) window, null-coerced. -/
theorem enhCurrentMetrics_eq (data : HealthData) :
    enhCurrentMetrics data =
      { steps := data.activity.head?.map fun r => jsOr0 r.steps
        calories := data.activity.head?.map fun r => jsOr0 r.calories
        distance := data.activity.head?.map fun r => jsOr0 r.distance
        exerciseMinutes := data.activity.head?.map fun r => jsOr0 r.exercise_minutes
        sleepHours := data.sleep.head?.map fun r => jsOr0 r.sleep_hours
        deepSleep := data.sleep.head?.map fun r => jsOr0 r.deep_sleep
        remSleep := data.sleep.head?.map fun r => jsOr0 r.rem_sleep
        currentHeartRate := data.heart.head?.map fun r => jsOr0 r.current_heart_rate
        restingHeartRate := data.heart.head?.map fun r => jsOr0 r.resting_heart_rate
        hrv := data.heart.head?.map fun r => jsOr0 r.hrv } := by
  rcases data with ⟨act, hrt, slp, bdy, vit, wact, wslp, whrt⟩
  cases act <;> cases slp <;> cases hrt <;> rfl

/-- Closed form of the comprehensive currentMetrics. -/
theorem compCurrentMetrics_eq (data : HealthData) :
    compCurrentMetrics data =
      { steps := data.activity.head?.map fun r => jsOr0 r.steps
        calories := data.activity.head?.map fun r => jsOr0 r.calories
        distance := data.activity.head?.map fun r => jsOr0 r.distance
        exerciseMinutes := data.activity.head?.map fun r => jsOr0 r.exercise_minutes
        sleepHours := data.sleep.head?.map fun r => jsOr0 r.sleep_hours
        deepSleep := data.sleep.head?.map fun r => jsOr0 r.deep_sleep
        remSleep := data.sleep.head?.map fun r => jsOr0 r.rem_sleep
        currentHeartRate := data.heart.head?.map fun r => jsOr0 r.current_heart_rate
        restingHeartRate := data.heart.head?.map fun r => jsOr0 r.resting_heart_rate
        hrv := data.heart.head?.map fun r => jsOr0 r.hrv
        weightKg := data.body.head?.map fun r => jsOr0 r.weight
        bmi := data.body.head?.map fun r => jsOr0 r.bmi
        bodyFat := data.body.head?.map fun r => jsOr0 r.body_fat
        vo2Max := data.body.head?.map fun r => jsOr0 r.vo2_max
        oxygenSaturation := data.vitals.head?.map fun r => jsOr0 r.spo2
        bloodPressureSystolic := data.vitals.head?.map fun r => jsOr0 r.bp_systolic
        bloodPressureDiastolic := data.vitals.head?.map fun r => jsOr0 r.bp_diastolic
        temperature := data.vitals.head?.map fun r => jsOr0 r.temperature } := by
  rcases data with ⟨act, hrt, slp, bdy, vit, wact, wslp, whrt⟩
  cases act <;> cases hrt <;> cases slp <;> cases bdy <;> cases vit <;> rfl

/-! ## C1 -/

/-- C1 counterexample.  With two activity snapshots (most recent first:
100 steps, then 7 steps) the ENHANCED insights report
`currentMetrics.steps = 7` — the OLDEST snapshot's value — because
`calculateStreaks` reverses the shared activity array before the activity
analysis reads index 0; the most recent snapshot's (null-coerced) steps value
is 100. -/
theorem C1_counterexample :
    (calculateEnhancedInsights mathSqrt 12 exC1).currentMetrics.steps = some 7 ∧
    exC1.activity.head?.map (fun r => jsOr0 r.steps) = some 100 ∧
    some (7 : ℚ) ≠ some (100 : ℚ) := by
  refine ⟨by decide, by decide, by decide⟩

/-- C1 (amended).  For `calculateComprehensiveInsights` the claim holds as
stated: every currentMetrics entry is the corresponding field of the newest
snapshot (descending-recency index 0) of its 30-day window with 0 substituted
for null, and an absent category leaves its keys absent.  For
`calculateEnhancedInsights` the heart and sleep entries likewise come from
the newest snapshot, but the activity entries come from the OLDEST snapshot
(`getLast?`), since `calculateStreaks` has reversed the activity array in
place before the activity block runs. -/
theorem C1_currentMetrics (msqrt : ℚ → ℚ) (hour : ℕ) (data : HealthData) :
    (calculateComprehensiveInsights data).currentMetrics =
      { steps := data.activity.head?.map fun r => jsOr0 r.steps
        calories := data.activity.head?.map fun r => jsOr0 r.calories
        distance := data.activity.head?.map fun r => jsOr0 r.distance
        exerciseMinutes := data.activity.head?.map fun r => jsOr0 r.exercise_minutes
        sleepHours := data.sleep.head?.map fun r => jsOr0 r.sleep_hours
        deepSleep := data.sleep.head?.map fun r => jsOr0 r.deep_sleep
        remSleep := data.sleep.head?.map fun r => jsOr0 r.rem_sleep
        currentHeartRate := data.heart.head?.map fun r => jsOr0 r.current_heart_rate
        restingHeartRate := data.heart.head?.map fun r => jsOr0 r.resting_heart_rate
        hrv := data.heart.head?.map fun r => jsOr0 r.hrv
        weightKg := data.body.head?.map fun r => jsOr0 r.weight
        bmi := data.body.head?.map fun r => jsOr0 r.bmi
        bodyFat := data.body.head?.map fun r => jsOr0 r.body_fat
        vo2Max := data.body.head?.map fun r => jsOr0 r.vo2_max
        oxygenSaturation := data.vitals.head?.map fun r => jsOr0 r.spo2
        bloodPressureSystolic := data.vitals.head?.map fun r => jsOr0 r.bp_systolic
        bloodPressureDiastolic := data.vitals.head?.map fun r => jsOr0 r.bp_diastolic
        temperature := data.vitals.head?.map fun r => jsOr0 r.temperature } ∧
    (calculateEnhancedInsights msqrt hour data).currentMetrics =
      { steps := data.activity.getLast?.map fun r => jsOr0 r.steps
        calories := data.activity.getLast?.map fun r => jsOr0 r.calories
        distance := data.activity.getLast?.map fun r => jsOr0 r.distance
        exerciseMinutes := data.activity.getLast?.map fun r => jsOr0 r.exercise_minutes
        sleepHours := data.sleep.head?.map fun r => jsOr0 r.sleep_hours
        deepSleep := data.sleep.head?.map fun r => jsOr0 r.deep_sleep
        remSleep := data.sleep.head?.map fun r => jsOr0 r.rem_sleep
        currentHeartRate := data.heart.head?.map fun r => jsOr0 r.current_heart_rate
        restingHeartRate := data.heart.head?.map fun r => jsOr0 r.resting_heart_rate
        hrv := data.heart.head?.map fun r => jsOr0 r.hrv } := by
  constructor
  · exact compCurrentMetrics_eq data
  · have h : (calculateEnhancedInsights msqrt hour data).currentMetrics
        = enhCurrentMetrics (calculateStreaks data).2 := rfl
    rw [h, calculateStreaks_snd, enhCurrentMetrics_eq]
    simp [List.head?_reverse]

/-! ## C9 -/

/-- C9: `calculateStreaks` mutates its argument — the data object the caller
keeps using afterwards has the activity array reversed in place
(oldest snapshot first) — and the caller's later reads observe it: the
enhanced activity currentMetrics come from the last element of the array as
originally fetched. -/
theorem C9_streaks_mutation (msqrt : ℚ → ℚ) (hour : ℕ) (data : HealthData) :
    (calculateStreaks data).2 = { data with activity := data.activity.reverse } ∧
    ((calculateStreaks data).2).activity.head? = data.activity.getLast? ∧
    (calculateEnhancedInsights msqrt hour data).currentMetrics.steps
      = data.activity.getLast?.map fun r => jsOr0 r.steps := by
  refine ⟨calculateStreaks_snd data, ?_, ?_⟩
  · rw [calculateStreaks_snd]
    exact List.head?_reverse data.activity
  · have h : (calculateEnhancedInsights msqrt hour data).currentMetrics
        = enhCurrentMetrics (calculateStreaks data).2 := rfl
    rw [h, calculateStreaks_snd, enhCurrentMetrics_eq]
    simp [List.head?_reverse]

/-- Closed form of the comprehensive weeklyAverages. -/
theorem compWeeklyAverages_eq (data : HealthData) :
    compWeeklyAverages data =
      { steps :=
          if data.activity = [] then none
          else some (jsRound (jsDiv (weeklyStepsOf data).sum ((weeklyStepsOf data).length : ℚ)))
        calories :=
          if data.activity = [] then none
          else some (jsRound (jsDiv ((data.weeklyActivity.map fun d => jsOr0 d.calories).sum)
            ((data.weeklyActivity.length : ℚ))))
        distance := none
        restingHeartRate :=
          if data.heart = [] then none
          else if 0 < (weeklyHROf data).length then some (mround (listAvg (weeklyHROf data)))
          else none
        sleepHours :=
          if data.sleep = [] then none
          else if 0 < (weeklySleepHoursOf data).length then
            some (toFixed1 (listAvg (weeklySleepHoursOf data)))
          else none
        deepSleep := none } := by
  rcases data with ⟨act, hrt, slp, bdy, vit, wact, wslp, whrt⟩
  cases act <;> cases hrt <;> cases slp <;>
    (simp [compWeeklyAverages]; try (split_ifs <;> simp_all))

/-- Closed form of the enhanced weeklyAverages. -/
theorem enhWeeklyAverages_eq (data : HealthData) :
    enhWeeklyAverages data =
      { steps :=
          if data.activity = [] then none
          else some (jsRound (jsDiv (weeklyStepsOf data).sum ((weeklyStepsOf data).length : ℚ)))
        calories :=
          if data.activity = [] then none
          else some (jsRound (jsDiv ((data.weeklyActivity.map fun d => jsOr0 d.calories).sum)
            ((data.weeklyActivity.length : ℚ))))
        distance :=
          if data.activity = [] then none
          else some (jsToFixed1 (jsDiv ((data.weeklyActivity.map fun d => jsOr0 d.distance).sum)
            ((data.weeklyActivity.length : ℚ))))
        restingHeartRate :=
          if data.heart = [] then none
          else if 0 < (weeklyHROf data).length then some (mround (listAvg (weeklyHROf data)))
          else none
        sleepHours :=
          if data.sleep = [] then none
          else if 0 < (weeklySleepHoursOf data).length then
            some (toFixed1 (listAvg (weeklySleepHoursOf data)))
          else none
        deepSleep :=
          if data.sleep = [] then none
          else if 0 < (weeklySleepHoursOf data).length then
            some (toFixed1 (((data.weeklySleep.map fun d => jsOr0 d.deep_sleep).sum) /
              (data.weeklySleep.length : ℚ)))
          else none } := by
  rcases data with ⟨act, hrt, slp, bdy, vit, wact, wslp, whrt⟩
  cases act <;> cases hrt <;> cases slp <;>
    (simp [enhWeeklyAverages]; try (split_ifs <;> simp_all))

/-! ## C4 -/

/-- C4 (code bug, evaluated at the failing input).  With the 30-day activity
window [9000 steps (most recent), 1000 steps (older)], `calculateStreaks`
returns a steps streak of 0 — it reverses the descending array and counts
from the OLDEST day — while the claimed scan from the latest snapshot
backwards (the `takeWhile` over the array as fetched) counts 1 qualifying
day. -/
theorem C4_streak_evaluation :
    (calculateStreaks exC4).1 = some 0 ∧
    (exC4.activity.takeWhile fun d => decide (8000 ≤ jsOr0 d.steps)).length = 1 := by
  exact ⟨by decide, by decide⟩

/-! ## C10 -/

/-- C10: when the 30-day activity window is nonempty but the 7-day window is
empty, both variants compute the weekly steps and calories averages as
`Math.round(0 / 0)` with no guard, so `weeklyAverages.steps` and
`weeklyAverages.calories` are NaN in the returned insights. -/
theorem C10_weekly_nan (msqrt : ℚ → ℚ) (hour : ℕ) (data : HealthData)
    (hAct : data.activity ≠ []) (hWeek : data.weeklyActivity = []) :
    (calculateComprehensiveInsights data).weeklyAverages.steps = some JsNum.nan ∧
    (calculateComprehensiveInsights data).weeklyAverages.calories = some JsNum.nan ∧
    (calculateEnhancedInsights msqrt hour data).weeklyAverages.steps = some JsNum.nan ∧
    (calculateEnhancedInsights msqrt hour data).weeklyAverages.calories = some JsNum.nan := by
  have h1 : (calculateComprehensiveInsights data).weeklyAverages = compWeeklyAverages data := rfl
  have h2 : (calculateEnhancedInsights msqrt hour data).weeklyAverages
      = enhWeeklyAverages (calculateStreaks data).2 := rfl
  rw [h1, h2, calculateStreaks_snd, compWeeklyAverages_eq, enhWeeklyAverages_eq]
  simp [hAct, hWeek, weeklyStepsOf, jsDiv, jsRound, List.reverse_eq_nil_iff]

/-- C10 witness: the NaN averages at a concrete input (one activity row,
empty 7-day window). -/
theorem C10_witness :
    (calculateComprehensiveInsights exC10).weeklyAverages.steps = some JsNum.nan ∧
    (calculateEnhancedInsights mathSqrt 12 exC10).weeklyAverages.calories = some JsNum.nan := by
  have h := C10_weekly_nan mathSqrt 12 exC10 (by decide) (by decide)
  exact ⟨h.1, h.2.2.2⟩

/-- `trendOf` leaves the key unset exactly when the window has fewer than
four entries (the older slice 3-5 being empty; an empty recent slice implies
an empty older slice). -/
theorem trendOf_none_iff (values : List ℚ) : trendOf values = none ↔ values.length < 4 := by
  simp only [trendOf]
  split_ifs with h
  · simp only [reduceCtorEq, false_iff]
    rcases h with ⟨-, h2⟩
    simp only [List.length_take, List.length_drop, lt_min_iff] at h2
    omega
  · simp only [List.length_take, List.length_drop, not_and_or, not_lt, Nat.le_zero,
      Nat.min_eq_zero_iff] at h
    simp only [true_iff]
    omega

/-- `trendOf` on a window of at least four entries: the slice-average formula
under JS semantics. -/
theorem trendOf_some (values : List ℚ) (h : 4 ≤ values.length) :
    trendOf values =
      some (jsToFixed1 (jsMulC (jsDiv
        (listAvg (values.take 3) - listAvg ((values.drop 3).take 3))
        (listAvg ((values.drop 3).take 3))) 100)) := by
  simp only [trendOf]
  rw [if_pos]
  refine ⟨?_, ?_⟩ <;>
    simp only [List.length_take, List.length_drop, lt_min_iff] <;> omega

/-! ## C2 -/

/-- C2 counterexample: with the 7-day steps window [1,1,1,0,0,0] both slices
are nonempty and the older average is exactly 0, yet the steps trend is NOT
omitted — the division is performed and Infinity is stored in the returned
trends. -/
theorem C2_counterexample :
    (calculateComprehensiveInsights exC2).trends.steps = some JsNum.posInf := by
  show (compTrends exC2).steps = some JsNum.posInf
  norm_num [compTrends, exC2, trendOf, weeklyStepsOf, listAvg, jsOr0, jsDiv, jsMulC, jsToFixed1]

/-- C2 (amended).  In both variants the steps trend is omitted exactly when
the activity window is empty or the 7-day window has fewer than four entries
(empty recent or older slice); there is NO guard on the older average, so
when both slices are nonempty and the older average is 0 while the recent
average is positive, the code stores Infinity in the trends entry. -/
theorem C2_trend_omission (msqrt : ℚ → ℚ) (hour : ℕ) (data : HealthData) :
    ((calculateComprehensiveInsights data).trends.steps = none ↔
      data.activity = [] ∨ data.weeklyActivity.length < 4) ∧
    ((calculateEnhancedInsights msqrt hour data).trends.steps = none ↔
      data.activity = [] ∨ data.weeklyActivity.length < 4) ∧
    (data.activity ≠ [] → 4 ≤ data.weeklyActivity.length →
      listAvg (((weeklyStepsOf data).drop 3).take 3) = 0 →
      0 < listAvg ((weeklyStepsOf data).take 3) →
      (calculateComprehensiveInsights data).trends.steps = some JsNum.posInf) := by
  obtain ⟨act, hrt, slp, bdy, vit, wact, wslp, whrt⟩ := data
  refine ⟨?_, ?_, ?_⟩
  · show (compTrends _).steps = none ↔ _
    cases act with
    | nil => simp [compTrends]
    | cons a t =>
      simp only [compTrends, trendOf_none_iff, weeklyStepsOf, List.length_map,
        reduceCtorEq, false_or]
  · have h : (calculateEnhancedInsights msqrt hour ⟨act, hrt, slp, bdy, vit, wact, wslp, whrt⟩).trends
        = enhTrends (calculateStreaks ⟨act, hrt, slp, bdy, vit, wact, wslp, whrt⟩).2 := rfl
    rw [h, calculateStreaks_snd]
    cases act with
    | nil => simp [enhTrends]
    | cons a t =>
      cases hrev : (a :: t).reverse with
      | nil => simp at hrev
      | cons b u =>
        simp only [enhTrends, hrev, trendOf_none_iff, weeklyStepsOf, List.length_map,
          reduceCtorEq, false_or]
  · intro hact hlen ho hr
    simp only [weeklyStepsOf] at ho hr
    show (compTrends _).steps = some JsNum.posInf
    cases act with
    | nil => simp at hact
    | cons a t =>
      have hws : 4 ≤ (wact.map fun d => jsOr0 d.steps).length := by simpa using hlen
      simp only [compTrends, weeklyStepsOf]
      rw [trendOf_some _ hws]
      rw [ho, sub_zero]
      norm_num [jsDiv, hr.ne', hr, jsMulC, jsToFixed1]

/-- C2 witness: the omission equivalence and the Infinity case instantiated
at concrete inputs (an empty 7-day window, and the [1,1,1,0,0,0] window). -/
theorem C2_witness :
    (calculateComprehensiveInsights exC10).trends.steps = none ∧
    (calculateComprehensiveInsights exC2).trends.steps = some JsNum.posInf := by
  refine ⟨?_, ?_⟩
  · exact ((C2_trend_omission mathSqrt 0 exC10).1).mpr (by decide)
  · exact (C2_trend_omission mathSqrt 0 exC2).2.2 (by decide)
      (by decide)
      (by norm_num [exC2, weeklyStepsOf, listAvg, jsOr0])
      (by norm_num [exC2, weeklyStepsOf, listAvg, jsOr0])

/-! ## C6 -/

/-- C6: whenever the activity window is nonempty, the 7-day window has both
3-entry slices nonempty and the older-slice average is nonzero, the steps
trend in both variants equals (recentAvg - olderAvg) / olderAvg x 100 rounded
to one decimal; and on the spec's scenario window
[12000, 11000, 10500, 9000, 8500, 8000] the weekly steps average is 9833 and
the steps trend is 31.4 (= 157/5). -/
theorem C6_trend_formula (msqrt : ℚ → ℚ) (hour : ℕ) (data : HealthData)
    (hact : data.activity ≠ []) (hlen : 4 ≤ data.weeklyActivity.length)
    (ho : listAvg (((weeklyStepsOf data).drop 3).take 3) ≠ 0) :
    ((calculateComprehensiveInsights data).trends.steps =
      some (JsNum.num (toFixed1 ((listAvg ((weeklyStepsOf data).take 3) -
        listAvg (((weeklyStepsOf data).drop 3).take 3)) /
        listAvg (((weeklyStepsOf data).drop 3).take 3) * 100)))) ∧
    ((calculateEnhancedInsights msqrt hour data).trends.steps =
      some (JsNum.num (toFixed1 ((listAvg ((weeklyStepsOf data).take 3) -
        listAvg (((weeklyStepsOf data).drop 3).take 3)) /
        listAvg (((weeklyStepsOf data).drop 3).take 3) * 100)))) ∧
    (calculateComprehensiveInsights exC6).weeklyAverages.steps = some (JsNum.num 9833) ∧
    (calculateComprehensiveInsights exC6).trends.steps = some (JsNum.num (157 / 5)) := by
  obtain ⟨act, hrt, slp, bdy, vit, wact, wslp, whrt⟩ := data
  simp only [weeklyStepsOf] at ho ⊢
  have hws : 4 ≤ (wact.map fun d => jsOr0 d.steps).length := by simpa using hlen
  refine ⟨?_, ?_, ?_, ?_⟩
  · show (compTrends _).steps = _
    cases act with
    | nil => simp at hact
    | cons a t =>
      simp only [compTrends, weeklyStepsOf]
      rw [trendOf_some _ hws]
      simp [jsDiv, ho, jsMulC, jsToFixed1]
  · have h : (calculateEnhancedInsights msqrt hour ⟨act, hrt, slp, bdy, vit, wact, wslp, whrt⟩).trends
        = enhTrends (calculateStreaks ⟨act, hrt, slp, bdy, vit, wact, wslp, whrt⟩).2 := rfl
    rw [h, calculateStreaks_snd]
    cases act with
    | nil => simp at hact
    | cons a t =>
      cases hrev : (a :: t).reverse with
      | nil => simp at hrev
      | cons b u =>
        simp only [enhTrends, hrev, weeklyStepsOf]
        rw [trendOf_some _ hws]
        simp [jsDiv, ho, jsMulC, jsToFixed1]
  · show (compWeeklyAverages exC6).steps = _
    rw [compWeeklyAverages_eq]
    norm_num [exC6, weeklyStepsOf, jsOr0, jsDiv, jsRound, mround]
  · show (compTrends exC6).steps = _
    norm_num [compTrends, exC6, trendOf, weeklyStepsOf, listAvg, jsOr0, jsDiv, jsMulC,
      jsToFixed1, toFixed1]

/-- C6 witness: the formula instantiated at the scenario window gives the
claimed 31.4 percent in both variants. -/
theorem C6_witness :
    (calculateComprehensiveInsights exC6).trends.steps = some (JsNum.num (157 / 5)) ∧
    (calculateEnhancedInsights mathSqrt 0 exC6).trends.steps = some (JsNum.num (157 / 5)) := by
  have h := C6_trend_formula mathSqrt 0 exC6 (by decide) (by decide)
    (by norm_num [exC6, weeklyStepsOf, listAvg, jsOr0])
  constructor
  · rw [h.1]
    norm_num [exC6, weeklyStepsOf, listAvg, jsOr0, toFixed1]
  · rw [h.2.1]
    norm_num [exC6, weeklyStepsOf, listAvg, jsOr0, toFixed1]

/-! ## C7 -/

/-- The square-root model is exact at 0. -/
theorem mathSqrt_zero : mathSqrt 0 = 0 := by decide

/-- Multiplying by the positive constant 100 commutes with `Math.max(0, -)`
in JS semantics. -/
theorem jsMax0_mulC_comm (x : JsNum) : jsMulC (jsMax0 x) 100 = jsMax0 (jsMulC x 100) := by
  cases x with
  | nan => rfl
  | posInf => norm_num [jsMax0, jsMulC]
  | negInf => norm_num [jsMax0, jsMulC]
  | num a =>
    simp only [jsMax0, jsMulC, JsNum.num.injEq]
    rw [max_mul_of_nonneg _ _ (by norm_num : (0 : ℚ) ≤ 100), zero_mul]

/-- C7 counterexample: the all-zero two-sample sequence is a constant
sequence, but `calculateConsistency` divides the standard deviation 0 by the
mean 0 and returns NaN, not 100. -/
theorem C7_counterexample :
    calculateConsistency mathSqrt [0, 0] = JsNum.nan ∧ JsNum.nan ≠ JsNum.num 100 := by
  constructor
  · norm_num [calculateConsistency, mathSqrt_zero, jsDiv, jsOneSub, jsMulC, jsMax0, jsToFixed1]
  · simp

/-- C7 (amended): `calculateConsistency` returns 0 for fewer than two
samples; for at least two samples it returns the 1-decimal rounding of
100 x max(0, 1 - stddev/mean) under JS semantics (the spec's formula, with
the multiplication by 100 moved outside the max, which is equivalent);
a constant NONZERO sequence gives exactly 100, while a constant ZERO
sequence of two or more samples gives NaN (stddev/mean is 0/0). -/
theorem C7_consistency (msqrt : ℚ → ℚ) (values : List ℚ) (c : ℚ) (n : ℕ)
    (h0 : msqrt 0 = 0) (hc : c ≠ 0) (hn : 2 ≤ n) :
    (values.length < 2 → calculateConsistency msqrt values = .num 0) ∧
    (2 ≤ values.length → calculateConsistency msqrt values =
      jsToFixed1 (jsMulC (jsMax0 (jsOneSub (jsDiv
        (msqrt (((values.map fun v =>
          (v - values.sum / (values.length : ℚ)) ^ 2).sum) / (values.length : ℚ)))
        (values.sum / (values.length : ℚ))))) 100)) ∧
    calculateConsistency msqrt (List.replicate n c) = .num 100 ∧
    calculateConsistency msqrt (List.replicate n (0 : ℚ)) = .nan := by
  have hn0 : ((n : ℚ)) ≠ 0 := by
    have : (0 : ℚ) < (n : ℚ) := by exact_mod_cast Nat.lt_of_lt_of_le (by norm_num) hn
    exact this.ne'
  refine ⟨?_, ?_, ?_, ?_⟩
  · intro h
    simp [calculateConsistency, h]
  · intro h
    rw [calculateConsistency, if_neg (by omega)]
    rw [jsMax0_mulC_comm]
  · have hmean : (List.replicate n c).sum / ((List.replicate n c).length : ℚ) = c := by
      rw [List.sum_replicate, List.length_replicate, nsmul_eq_mul,
        mul_div_cancel_left₀ c hn0]
    simp only [calculateConsistency]
    rw [if_neg (by simp only [List.length_replicate]; omega)]
    rw [hmean]
    have hvar : ((List.replicate n c).map fun v => (v - c) ^ 2).sum
        / ((List.replicate n c).length : ℚ) = 0 := by
      simp [List.map_replicate, List.sum_replicate]
    rw [hvar, h0]
    norm_num [jsDiv, hc, jsOneSub, jsMulC, jsMax0, jsToFixed1, toFixed1]
  · have hmean : (List.replicate n (0 : ℚ)).sum / ((List.replicate n (0 : ℚ)).length : ℚ) = 0 := by
      simp [List.sum_replicate]
    simp only [calculateConsistency]
    rw [if_neg (by simp only [List.length_replicate]; omega)]
    rw [hmean]
    have hvar : ((List.replicate n (0 : ℚ)).map fun v => (v - 0) ^ 2).sum
        / ((List.replicate n (0 : ℚ)).length : ℚ) = 0 := by
      simp [List.map_replicate, List.sum_replicate]
    rw [hvar, h0]
    norm_num [jsDiv, jsOneSub, jsMulC, jsMax0, jsToFixed1]

/-- C7 witness: the consistency values at concrete sequences — empty gives 0,
the constant sequence [5,5] gives 100, the zero sequence [0,0] gives NaN. -/
theorem C7_witness :
    calculateConsistency mathSqrt [] = JsNum.num 0 ∧
    calculateConsistency mathSqrt (List.replicate 2 (5 : ℚ)) = JsNum.num 100 ∧
    calculateConsistency mathSqrt (List.replicate 2 (0 : ℚ)) = JsNum.nan := by
  have h := C7_consistency mathSqrt ([] : List ℚ) 5 2 mathSqrt_zero (by norm_num) (by norm_num)
  exact ⟨h.1 (by simp), h.2.2.1, h.2.2.2⟩

/-! ## C3 -/

/-- `metric > 0` on an optional metric holds exactly when the null-coerced
value is positive. -/
theorem optPos_iff (o : Option ℚ) : optPos o = true ↔ 0 < jsOr0 o := by
  cases o <;> simp [optPos, jsOr0]

theorem stepsSubScore_bounds (s : ℚ) (h : 0 < s) :
    0 ≤ stepsSubScore s ∧ stepsSubScore s ≤ 100 := by
  unfold stepsSubScore
  exact ⟨le_min (by norm_num) (by positivity), min_le_left _ _⟩

theorem heartSubScore_bounds (r : ℚ) : 0 ≤ heartSubScore r ∧ heartSubScore r ≤ 100 := by
  unfold heartSubScore
  split_ifs <;> norm_num

theorem sleepSubScore_bounds (h : ℚ) : 0 ≤ sleepSubScore h ∧ sleepSubScore h ≤ 100 := by
  unfold sleepSubScore
  split_ifs <;> norm_num

theorem vitalsSubScore_bounds (s : ℚ) : 0 ≤ vitalsSubScore s ∧ vitalsSubScore s ≤ 100 := by
  unfold vitalsSubScore
  split_ifs <;> norm_num

/-- Rounding a ratio of a total bounded by 100 x components gives an integer
in [0, 100]. -/
theorem mround_div_mem (t c : ℚ) (hc : 0 < c) (ht0 : 0 ≤ t) (htc : t ≤ 100 * c) :
    ∃ n : ℤ, mround (t / c) = (n : ℚ) ∧ 0 ≤ n ∧ n ≤ 100 := by
  refine ⟨⌊t / c + 1 / 2⌋, rfl, Int.floor_nonneg.mpr (by positivity), ?_⟩
  have h1 : t / c ≤ 100 := (div_le_iff₀ hc).mpr (by linarith)
  have h2 : t / c + 1 / 2 < ((101 : ℤ) : ℚ) := by push_cast; linarith
  have := Int.floor_lt.mpr h2
  omega

/-- The accumulation shape always produces an integer in [0, 100] when each
included sub-score lies in [0, 100] and the weights are nonnegative. -/
theorem scoreAccum_mem (w1 w2 w3 w4 : ℚ) (b1 b2 b3 b4 : Bool) (s1 s2 s3 s4 : ℚ)
    (hw1 : 0 ≤ w1) (hw2 : 0 ≤ w2) (hw3 : 0 ≤ w3) (hw4 : 0 ≤ w4)
    (h1 : b1 = true → 0 ≤ s1 ∧ s1 ≤ 100) (h2 : b2 = true → 0 ≤ s2 ∧ s2 ≤ 100)
    (h3 : b3 = true → 0 ≤ s3 ∧ s3 ≤ 100) (h4 : b4 = true → 0 ≤ s4 ∧ s4 ≤ 100) :
    ∃ n : ℤ, scoreAccum w1 w2 w3 w4 b1 b2 b3 b4 s1 s2 s3 s4 = (n : ℚ) ∧ 0 ≤ n ∧ n ≤ 100 := by
  have A : ∀ (w s : ℚ) (b : Bool), 0 ≤ w → (b = true → 0 ≤ s ∧ s ≤ 100) →
      0 ≤ (if b then s * w else 0) ∧ (if b then s * w else 0) ≤ 100 * (if b then w else 0) ∧
        0 ≤ (if b then w else 0) := by
    intro w s b hw hb
    cases b with
    | false => norm_num
    | true =>
      obtain ⟨hb0, hb1⟩ := hb rfl
      exact ⟨by simpa using mul_nonneg hb0 hw,
        by simpa using mul_le_mul_of_nonneg_right hb1 hw, by simpa using hw⟩
  obtain ⟨p1, q1, r1⟩ := A w1 s1 b1 hw1 h1
  obtain ⟨p2, q2, r2⟩ := A w2 s2 b2 hw2 h2
  obtain ⟨p3, q3, r3⟩ := A w3 s3 b3 hw3 h3
  obtain ⟨p4, q4, r4⟩ := A w4 s4 b4 hw4 h4
  unfold scoreAccum
  by_cases hc : 0 < (if b1 then w1 else 0) + (if b2 then w2 else 0) + (if b3 then w3 else 0) +
      (if b4 then w4 else 0)
  · rw [if_pos hc]
    exact mround_div_mem _ _ hc (by linarith) (by linarith)
  · rw [if_neg hc]
    exact ⟨0, by norm_num⟩

/-- The comprehensive health score is always an integer in [0, 100]. -/
theorem compositeHealthScore_mem (cm : CurrentMetrics) :
    ∃ n : ℤ, compositeHealthScore cm = (n : ℚ) ∧ 0 ≤ n ∧ n ≤ 100 := by
  have h : compositeHealthScore cm = scoreAccum (25 / 100) (25 / 100) (25 / 100) (25 / 100)
      (optPos cm.steps) (optPos cm.restingHeartRate) (optPos cm.sleepHours)
      (optPos cm.oxygenSaturation)
      (stepsSubScore (jsOr0 cm.steps)) (heartSubScore (jsOr0 cm.restingHeartRate))
      (sleepSubScore (jsOr0 cm.sleepHours)) (vitalsSubScore (jsOr0 cm.oxygenSaturation)) := rfl
  rw [h]
  exact scoreAccum_mem _ _ _ _ _ _ _ _ _ _ _ _ (by norm_num) (by norm_num) (by norm_num)
    (by norm_num)
    (fun hb => stepsSubScore_bounds _ ((optPos_iff _).mp hb))
    (fun _ => heartSubScore_bounds _)
    (fun _ => sleepSubScore_bounds _)
    (fun _ => vitalsSubScore_bounds _)

/-- C3 counterexample.  (1) The ENHANCED health score is NaN — neither an
integer nor in [0, 100] — on an activity window whose 7-day steps are two
zero readings: the consistency term divides 0 by 0 and the NaN propagates
through the unconditional 15% component into `Math.round`.  (2) There is no
explicit no-data indicator: the comprehensive score is 0 both for a user
with no data at all and for a user with activity data (one step), so the
reported healthScore 0 does not distinguish the two. -/
theorem C3_counterexample :
    (calculateEnhancedInsights mathSqrt 12 exC3).healthScore = JsNum.nan ∧
    (calculateComprehensiveInsights emptyData).healthScore = 0 ∧
    (calculateComprehensiveInsights exTiny).healthScore = 0 ∧
    exTiny.activity ≠ [] := by
  refine ⟨?_, ?_, ?_, by decide⟩
  · show calculateEnhancedHealthScore (enhCurrentMetrics (calculateStreaks exC3).2)
      (enhStepsDetail mathSqrt (calculateStreaks exC3).2) = JsNum.nan
    norm_num [exC3, calculateStreaks, enhCurrentMetrics, enhStepsDetail,
      calculateEnhancedHealthScore, calculateConsistency, weeklyStepsOf, jsOr0, optPos,
      mathSqrt_zero, jsDiv, jsDivJ, jsOneSub, jsMulC, jsMax0, jsToFixed1, jsAddC, jsRound,
      jsMaxList, toFixed1, mround]
  · show compositeHealthScore (compCurrentMetrics emptyData) = 0
    rw [compCurrentMetrics_eq]
    norm_num [emptyData, compositeHealthScore, optPos]
  · show compositeHealthScore (compCurrentMetrics exTiny) = 0
    rw [compCurrentMetrics_eq]
    norm_num [exTiny, compositeHealthScore, optPos, jsOr0, stepsSubScore, mround, min_def]

/-- C3 (amended).  The COMPREHENSIVE health score is always an integer in
[0, 100], and it is 0 when no category has any data; but the response
carries NO explicit no-data indicator (the result record has no such field —
a no-data 0 is indistinguishable from a computed 0 in the healthScore
field), and the ENHANCED score is not always a number at all (see the
counterexample). -/
theorem C3_healthscore (data : HealthData) :
    (∃ n : ℤ, (calculateComprehensiveInsights data).healthScore = (n : ℚ) ∧ 0 ≤ n ∧ n ≤ 100) ∧
    (data.activity = [] → data.heart = [] → data.sleep = [] → data.body = [] →
      data.vitals = [] → (calculateComprehensiveInsights data).healthScore = 0) := by
  constructor
  · exact compositeHealthScore_mem (compCurrentMetrics data)
  · intro h1 h2 h3 h4 h5
    show compositeHealthScore (compCurrentMetrics data) = 0
    rw [compCurrentMetrics_eq]
    norm_num [h1, h2, h3, h4, h5, compositeHealthScore, optPos]

/-- C3 witness: at the all-empty input the comprehensive score is 0 (and in
[0, 100]). -/
theorem C3_witness :
    (calculateComprehensiveInsights emptyData).healthScore = 0 := by
  exact (C3_healthscore emptyData).2 rfl rfl rfl rfl rfl

/-! ## C5 -/

/-- C5 counterexample.  With only sleep data (8 hours), the claim's formula —
weightxsub-score over the categories that have data, divided by those
categories' weights — predicts round(100 x 0.3 / 0.3) = 100, but the
ENHANCED score divides by 0.3 + 0.15: the 15% consistency weight is added to
the denominator unconditionally, so the code returns 67. -/
theorem C5_counterexample :
    (calculateEnhancedInsights mathSqrt 12 exC5).healthScore = JsNum.num 67 ∧
    mround ((sleepSubScore 8 * (30 / 100)) / (30 / 100)) = 100 ∧
    JsNum.num 67 ≠ JsNum.num 100 := by
  refine ⟨?_, ?_, by simp⟩
  · show calculateEnhancedHealthScore (enhCurrentMetrics (calculateStreaks exC5).2)
      (enhStepsDetail mathSqrt (calculateStreaks exC5).2) = JsNum.num 67
    norm_num [exC5, calculateStreaks, enhCurrentMetrics, enhStepsDetail,
      calculateEnhancedHealthScore, optPos, jsOr0, sleepSubScore, jsDivJ, jsDiv, jsMulC,
      jsAddC, jsRound, mround]
  · norm_num [sleepSubScore, mround]

/-- C5 (amended).  The COMPREHENSIVE (4 x 25%) composite score is exactly
the claimed renormalized weighted mean: weight x sub-score summed over the
categories with data (positive current metric), divided by the sum of
exactly those categories' weights, rounded — proved against a
specification-side definition — and on the claim's scenario (steps 9500,
resting HR 65, sleep 7.5 h, no vitals) it equals 98.  The ENHANCED variant
does not renormalize this way: its 15% consistency weight is always in the
denominator (see the counterexample). -/
theorem C5_composite (cm : CurrentMetrics) :
    compositeHealthScore cm = specCompositeScore cm ∧
    (calculateComprehensiveInsights exC5scen).healthScore = 98 := by
  constructor
  · cases h1 : optPos cm.steps <;> cases h2 : optPos cm.restingHeartRate <;>
      cases h3 : optPos cm.sleepHours <;> cases h4 : optPos cm.oxygenSaturation <;>
      simp only [compositeHealthScore, specCompositeScore, h1, h2, h3, h4, if_true, if_false,
        Bool.false_eq_true, List.append_nil, List.nil_append, List.append_assoc, List.map_cons,
        List.map_nil, List.sum_cons, List.sum_nil, List.cons_append, reduceCtorEq] <;>
      norm_num <;>
      (try (congr 1; ring))
  · show compositeHealthScore (compCurrentMetrics exC5scen) = 98
    rw [compCurrentMetrics_eq]
    norm_num [exC5scen, compositeHealthScore, optPos, jsOr0, stepsSubScore, heartSubScore,
      sleepSubScore, mround, min_def]

/-! ## C8 -/

/-- Every recommendation pushed by the comprehensive activity block carries
the activity category. -/
theorem compActRecs_cat (data : HealthData) :
    ∀ r ∈ compActRecs data, r.category = Category.activity := by
  obtain ⟨act, hrt, slp, bdy, vit, wact, wslp, whrt⟩ := data
  cases act with
  | nil => simp [compActRecs]
  | cons a t =>
    intro r hr
    simp only [compActRecs] at hr
    split_ifs at hr <;> simp_all

theorem compHeartRecs_cat (data : HealthData) :
    ∀ r ∈ compHeartRecs data, r.category = Category.heart := by
  obtain ⟨act, hrt, slp, bdy, vit, wact, wslp, whrt⟩ := data
  cases hrt with
  | nil => simp [compHeartRecs]
  | cons a t =>
    intro r hr
    simp only [compHeartRecs] at hr
    split_ifs at hr <;> simp_all

theorem compSleepRecs_cat (data : HealthData) :
    ∀ r ∈ compSleepRecs data, r.category = Category.sleep := by
  obtain ⟨act, hrt, slp, bdy, vit, wact, wslp, whrt⟩ := data
  cases slp with
  | nil => simp [compSleepRecs]
  | cons a t =>
    intro r hr
    simp only [compSleepRecs] at hr
    split_ifs at hr <;> simp_all

theorem compBodyRecs_cat (data : HealthData) :
    ∀ r ∈ compBodyRecs data, r.category = Category.body := by
  obtain ⟨act, hrt, slp, bdy, vit, wact, wslp, whrt⟩ := data
  cases bdy with
  | nil => simp [compBodyRecs]
  | cons a t =>
    intro r hr
    simp only [compBodyRecs] at hr
    split_ifs at hr <;> simp_all

theorem compVitalsRecs_cat (data : HealthData) :
    ∀ r ∈ compVitalsRecs data, r.category = Category.vitals := by
  obtain ⟨act, hrt, slp, bdy, vit, wact, wslp, whrt⟩ := data
  cases vit with
  | nil => simp [compVitalsRecs]
  | cons a t =>
    intro r hr
    simp only [compVitalsRecs] at hr
    split_ifs at hr <;> simp_all

theorem compHeartAlerts_cat (data : HealthData) :
    ∀ a ∈ compHeartAlerts data, a.category = Category.heart := by
  obtain ⟨act, hrt, slp, bdy, vit, wact, wslp, whrt⟩ := data
  cases hrt with
  | nil => simp [compHeartAlerts]
  | cons x t =>
    intro a ha
    simp only [compHeartAlerts] at ha
    split_ifs at ha <;> simp_all

theorem compSleepAlerts_cat (data : HealthData) :
    ∀ a ∈ compSleepAlerts data, a.category = Category.sleep := by
  obtain ⟨act, hrt, slp, bdy, vit, wact, wslp, whrt⟩ := data
  cases slp with
  | nil => simp [compSleepAlerts]
  | cons x t =>
    intro a ha
    simp only [compSleepAlerts] at ha
    split_ifs at ha <;> simp_all

theorem compVitalsAlerts_cat (data : HealthData) :
    ∀ a ∈ compVitalsAlerts data, a.category = Category.vitals := by
  obtain ⟨act, hrt, slp, bdy, vit, wact, wslp, whrt⟩ := data
  cases vit with
  | nil => simp [compVitalsAlerts]
  | cons x t =>
    intro a ha
    simp only [compVitalsAlerts] at ha
    rw [List.mem_append] at ha
    rcases ha with ha | ha <;> split_ifs at ha <;> simp_all

theorem enhActRecs_cat (data : HealthData) :
    ∀ r ∈ enhActRecs data, r.category = Category.activity := by
  obtain ⟨act, hrt, slp, bdy, vit, wact, wslp, whrt⟩ := data
  cases act with
  | nil => simp [enhActRecs]
  | cons a t =>
    intro r hr
    simp only [enhActRecs] at hr
    split_ifs at hr <;> simp_all

theorem enhTrendRecs_cat (data : HealthData) :
    ∀ r ∈ enhTrendRecs data, r.category = Category.activity := by
  obtain ⟨act, hrt, slp, bdy, vit, wact, wslp, whrt⟩ := data
  cases act with
  | nil => simp [enhTrendRecs]
  | cons a t =>
    intro r hr
    cases htr : trendOf (weeklyStepsOf ⟨a :: t, hrt, slp, bdy, vit, wact, wslp, whrt⟩) with
    | none => simp [enhTrendRecs, htr] at hr
    | some tr =>
      simp only [enhTrendRecs, htr] at hr
      split_ifs at hr <;> simp_all

theorem enhSleepRecs_cat (data : HealthData) :
    ∀ r ∈ enhSleepRecs data, r.category = Category.sleep := by
  obtain ⟨act, hrt, slp, bdy, vit, wact, wslp, whrt⟩ := data
  cases slp with
  | nil => simp [enhSleepRecs]
  | cons a t =>
    intro r hr
    simp only [enhSleepRecs] at hr
    split_ifs at hr <;> simp_all

theorem enhHeartRecs_cat (data : HealthData) :
    ∀ r ∈ enhHeartRecs data, r.category = Category.heart := by
  obtain ⟨act, hrt, slp, bdy, vit, wact, wslp, whrt⟩ := data
  cases hrt with
  | nil => simp [enhHeartRecs]
  | cons a t =>
    intro r hr
    simp only [enhHeartRecs] at hr
    split_ifs at hr <;> simp_all

theorem enhSleepAlerts_cat (data : HealthData) :
    ∀ a ∈ enhSleepAlerts data, a.category = Category.sleep := by
  obtain ⟨act, hrt, slp, bdy, vit, wact, wslp, whrt⟩ := data
  cases slp with
  | nil => simp [enhSleepAlerts]
  | cons x t =>
    intro a ha
    simp only [enhSleepAlerts] at ha
    split_ifs at ha <;> simp_all

theorem enhHeartAlerts_cat (data : HealthData) :
    ∀ a ∈ enhHeartAlerts data, a.category = Category.heart := by
  obtain ⟨act, hrt, slp, bdy, vit, wact, wslp, whrt⟩ := data
  cases hrt with
  | nil => simp [enhHeartAlerts]
  | cons x t =>
    intro a ha
    simp only [enhHeartAlerts] at ha
    split_ifs at ha <;> simp_all

/-- The comprehensive recommendations restricted to one category are exactly
that category's component. -/
theorem comp_recs_filter (data : HealthData) (c : Category) :
    ((compRecommendations data).filter fun r => decide (r.category = c)) =
      (match c with
        | .activity => compActRecs data
        | .heart => compHeartRecs data
        | .sleep => compSleepRecs data
        | .body => compBodyRecs data
        | .vitals => compVitalsRecs data) := by
  have hfs : ∀ (l : List Recommendation) (c' : Category), (∀ r ∈ l, r.category = c') →
      ((l.filter fun r => decide (r.category = c)) = if c = c' then l else []) := by
    intro l c' hl
    split_ifs with h
    · subst h
      exact List.filter_eq_self.mpr fun a ha => by simp [hl a ha]
    · exact List.filter_eq_nil_iff.mpr fun a ha => by simp [hl a ha, Ne.symm h]
  rw [compRecommendations, List.filter_append, List.filter_append, List.filter_append,
    List.filter_append, hfs _ _ (compActRecs_cat data), hfs _ _ (compHeartRecs_cat data),
    hfs _ _ (compSleepRecs_cat data), hfs _ _ (compBodyRecs_cat data),
    hfs _ _ (compVitalsRecs_cat data)]
  cases c <;> simp

/-- The comprehensive alerts restricted to one category. -/
theorem comp_alerts_filter (data : HealthData) (c : Category) :
    ((compAlerts data).filter fun a => decide (a.category = c)) =
      (match c with
        | .activity => []
        | .heart => compHeartAlerts data
        | .sleep => compSleepAlerts data
        | .body => []
        | .vitals => compVitalsAlerts data) := by
  have hfs : ∀ (l : List Alert) (c' : Category), (∀ a ∈ l, a.category = c') →
      ((l.filter fun a => decide (a.category = c)) = if c = c' then l else []) := by
    intro l c' hl
    split_ifs with h
    · subst h
      exact List.filter_eq_self.mpr fun a ha => by simp [hl a ha]
    · exact List.filter_eq_nil_iff.mpr fun a ha => by simp [hl a ha, Ne.symm h]
  rw [compAlerts, List.filter_append, List.filter_append,
    hfs _ _ (compHeartAlerts_cat data), hfs _ _ (compSleepAlerts_cat data),
    hfs _ _ (compVitalsAlerts_cat data)]
  cases c <;> simp

/-- The enhanced recommendations restricted to one category. -/
theorem enh_recs_filter (data : HealthData) (c : Category) :
    ((enhRecommendations data).filter fun r => decide (r.category = c)) =
      (match c with
        | .activity => enhActRecs data ++ enhTrendRecs data
        | .heart => enhHeartRecs data
        | .sleep => enhSleepRecs data
        | .body => []
        | .vitals => []) := by
  have hfs : ∀ (l : List Recommendation) (c' : Category), (∀ r ∈ l, r.category = c') →
      ((l.filter fun r => decide (r.category = c)) = if c = c' then l else []) := by
    intro l c' hl
    split_ifs with h
    · subst h
      exact List.filter_eq_self.mpr fun a ha => by simp [hl a ha]
    · exact List.filter_eq_nil_iff.mpr fun a ha => by simp [hl a ha, Ne.symm h]
  rw [enhRecommendations, List.filter_append, List.filter_append, List.filter_append,
    hfs _ _ (enhActRecs_cat data), hfs _ _ (enhTrendRecs_cat data),
    hfs _ _ (enhSleepRecs_cat data), hfs _ _ (enhHeartRecs_cat data)]
  cases c <;> simp

/-- The enhanced alerts restricted to one category. -/
theorem enh_alerts_filter (data : HealthData) (c : Category) :
    ((enhAlerts data).filter fun a => decide (a.category = c)) =
      (match c with
        | .activity => []
        | .heart => enhHeartAlerts data
        | .sleep => enhSleepAlerts data
        | .body => []
        | .vitals => []) := by
  have hfs : ∀ (l : List Alert) (c' : Category), (∀ a ∈ l, a.category = c') →
      ((l.filter fun a => decide (a.category = c)) = if c = c' then l else []) := by
    intro l c' hl
    split_ifs with h
    · subst h
      exact List.filter_eq_self.mpr fun a ha => by simp [hl a ha]
    · exact List.filter_eq_nil_iff.mpr fun a ha => by simp [hl a ha, Ne.symm h]
  rw [enhAlerts, List.filter_append,
    hfs _ _ (enhSleepAlerts_cat data), hfs _ _ (enhHeartAlerts_cat data)]
  cases c <;> simp

/-- C8: a category whose 30-day window is empty contributes no entry to
currentMetrics, weeklyAverages or trends and zero recommendations and
alerts, in both variants.  (The insight functions are total Lean functions,
so no error is raised on any input.) -/
theorem C8_empty_category (msqrt : ℚ → ℚ) (hour : ℕ) (data : HealthData) :
    (data.activity = [] →
      (calculateComprehensiveInsights data).currentMetrics.steps = none ∧
      (calculateComprehensiveInsights data).currentMetrics.calories = none ∧
      (calculateComprehensiveInsights data).currentMetrics.distance = none ∧
      (calculateComprehensiveInsights data).currentMetrics.exerciseMinutes = none ∧
      (calculateComprehensiveInsights data).weeklyAverages.steps = none ∧
      (calculateComprehensiveInsights data).weeklyAverages.calories = none ∧
      (calculateComprehensiveInsights data).trends.steps = none ∧
      ((calculateComprehensiveInsights data).recommendations.filter
        fun r => decide (r.category = Category.activity)) = [] ∧
      ((calculateComprehensiveInsights data).alerts.filter
        fun a => decide (a.category = Category.activity)) = []) ∧
    (data.heart = [] →
      (calculateComprehensiveInsights data).currentMetrics.currentHeartRate = none ∧
      (calculateComprehensiveInsights data).currentMetrics.restingHeartRate = none ∧
      (calculateComprehensiveInsights data).currentMetrics.hrv = none ∧
      (calculateComprehensiveInsights data).weeklyAverages.restingHeartRate = none ∧
      (calculateComprehensiveInsights data).trends.heartRate = none ∧
      ((calculateComprehensiveInsights data).recommendations.filter
        fun r => decide (r.category = Category.heart)) = [] ∧
      ((calculateComprehensiveInsights data).alerts.filter
        fun a => decide (a.category = Category.heart)) = []) ∧
    (data.sleep = [] →
      (calculateComprehensiveInsights data).currentMetrics.sleepHours = none ∧
      (calculateComprehensiveInsights data).currentMetrics.deepSleep = none ∧
      (calculateComprehensiveInsights data).currentMetrics.remSleep = none ∧
      (calculateComprehensiveInsights data).weeklyAverages.sleepHours = none ∧
      (calculateComprehensiveInsights data).trends.sleep = none ∧
      ((calculateComprehensiveInsights data).recommendations.filter
        fun r => decide (r.category = Category.sleep)) = [] ∧
      ((calculateComprehensiveInsights data).alerts.filter
        fun a => decide (a.category = Category.sleep)) = []) ∧
    (data.body = [] →
      (calculateComprehensiveInsights data).currentMetrics.weightKg = none ∧
      (calculateComprehensiveInsights data).currentMetrics.bmi = none ∧
      (calculateComprehensiveInsights data).currentMetrics.bodyFat = none ∧
      (calculateComprehensiveInsights data).currentMetrics.vo2Max = none ∧
      (calculateComprehensiveInsights data).trends.weight = none ∧
      ((calculateComprehensiveInsights data).recommendations.filter
        fun r => decide (r.category = Category.body)) = [] ∧
      ((calculateComprehensiveInsights data).alerts.filter
        fun a => decide (a.category = Category.body)) = []) ∧
    (data.vitals = [] →
      (calculateComprehensiveInsights data).currentMetrics.oxygenSaturation = none ∧
      (calculateComprehensiveInsights data).currentMetrics.bloodPressureSystolic = none ∧
      (calculateComprehensiveInsights data).currentMetrics.bloodPressureDiastolic = none ∧
      (calculateComprehensiveInsights data).currentMetrics.temperature = none ∧
      ((calculateComprehensiveInsights data).recommendations.filter
        fun r => decide (r.category = Category.vitals)) = [] ∧
      ((calculateComprehensiveInsights data).alerts.filter
        fun a => decide (a.category = Category.vitals)) = []) ∧
    (data.activity = [] →
      (calculateEnhancedInsights msqrt hour data).currentMetrics.steps = none ∧
      (calculateEnhancedInsights msqrt hour data).currentMetrics.calories = none ∧
      (calculateEnhancedInsights msqrt hour data).currentMetrics.distance = none ∧
      (calculateEnhancedInsights msqrt hour data).currentMetrics.exerciseMinutes = none ∧
      (calculateEnhancedInsights msqrt hour data).weeklyAverages.steps = none ∧
      (calculateEnhancedInsights msqrt hour data).weeklyAverages.calories = none ∧
      (calculateEnhancedInsights msqrt hour data).weeklyAverages.distance = none ∧
      (calculateEnhancedInsights msqrt hour data).trends.steps = none ∧
      ((calculateEnhancedInsights msqrt hour data).recommendations.filter
        fun r => decide (r.category = Category.activity)) = [] ∧
      ((calculateEnhancedInsights msqrt hour data).alerts.filter
        fun a => decide (a.category = Category.activity)) = []) ∧
    (data.sleep = [] →
      (calculateEnhancedInsights msqrt hour data).currentMetrics.sleepHours = none ∧
      (calculateEnhancedInsights msqrt hour data).currentMetrics.deepSleep = none ∧
      (calculateEnhancedInsights msqrt hour data).currentMetrics.remSleep = none ∧
      (calculateEnhancedInsights msqrt hour data).weeklyAverages.sleepHours = none ∧
      (calculateEnhancedInsights msqrt hour data).weeklyAverages.deepSleep = none ∧
      ((calculateEnhancedInsights msqrt hour data).recommendations.filter
        fun r => decide (r.category = Category.sleep)) = [] ∧
      ((calculateEnhancedInsights msqrt hour data).alerts.filter
        fun a => decide (a.category = Category.sleep)) = []) ∧
    (data.heart = [] →
      (calculateEnhancedInsights msqrt hour data).currentMetrics.currentHeartRate = none ∧
      (calculateEnhancedInsights msqrt hour data).currentMetrics.restingHeartRate = none ∧
      (calculateEnhancedInsights msqrt hour data).currentMetrics.hrv = none ∧
      (calculateEnhancedInsights msqrt hour data).weeklyAverages.restingHeartRate = none ∧
      ((calculateEnhancedInsights msqrt hour data).recommendations.filter
        fun r => decide (r.category = Category.heart)) = [] ∧
      ((calculateEnhancedInsights msqrt hour data).alerts.filter
        fun a => decide (a.category = Category.heart)) = []) := by
  obtain ⟨act, hrt, slp, bdy, vit, wact, wslp, whrt⟩ := data
  refine ⟨?_, ?_, ?_, ?_, ?_, ?_, ?_, ?_⟩ <;> intro h <;> subst h <;>
    simp [calculateComprehensiveInsights, calculateEnhancedInsights, calculateStreaks_snd,
      compCurrentMetrics_eq, compWeeklyAverages_eq, compTrends, comp_recs_filter,
      comp_alerts_filter, enhCurrentMetrics_eq, enhWeeklyAverages_eq, enhTrends,
      enh_recs_filter, enh_alerts_filter, compActRecs, compHeartRecs, compSleepRecs,
      compBodyRecs, compVitalsRecs, compHeartAlerts, compSleepAlerts, compVitalsAlerts,
      enhActRecs, enhTrendRecs, enhSleepRecs, enhHeartRecs, enhSleepAlerts, enhHeartAlerts]

/-- C8 witness: at the all-empty input every listed entry is absent and the
category-filtered recommendation and alert lists are empty. -/
theorem C8_witness :
    (calculateComprehensiveInsights emptyData).currentMetrics.steps = none ∧
    ((calculateComprehensiveInsights emptyData).recommendations.filter
      fun r => decide (r.category = Category.activity)) = [] ∧
    (calculateEnhancedInsights mathSqrt 0 emptyData).weeklyAverages.steps = none ∧
    ((calculateEnhancedInsights mathSqrt 0 emptyData).alerts.filter
      fun a => decide (a.category = Category.heart)) = [] := by
  obtain ⟨hA, hH, hS, hB, hV, hEA, hES, hEH⟩ := C8_empty_category mathSqrt 0 emptyData
  obtain ⟨c1, c2, c3, c4, c5, c6, c7, c8, c9⟩ := hA rfl
  obtain ⟨e1, e2, e3, e4, e5, e6, e7, e8, e9, e10⟩ := hEA rfl
  obtain ⟨f1, f2, f3, f4, f5, f6⟩ := hEH rfl
  exact ⟨c1, c8, e5, f6⟩

end Cardio
